import Mathlib

/-!
Shallow embedding of `variantworks/io/vcfio.py` (class `VCFReader`): the VCF
record normalization pipeline — per-entry validation, per-record filtering,
zygosity/type classification, multi-allele splitting, and the ordered
collection of `Variant` values it builds.

Python exceptions are embedded as an explicit error type; the process-wide
warning stream is embedded as an explicit list of emitted diagnostics; the
external VCF-parser collaborator (`vcf.Reader`) is embedded as a lookup from
file path to an already-parsed file (sample names plus record stream).
-/

namespace VariantWorks

/-- Modelled from the spec: the zygosity enum of `variantworks.types`
(module not in the sources; members `NO_VARIANT`, `HETEROZYGOUS`,
`HOMOZYGOUS` are the ones `vcfio.py` references). -/
inductive VariantZygosity
  | NO_VARIANT
  | HETEROZYGOUS
  | HOMOZYGOUS
deriving DecidableEq, Repr

/-- Modelled from the spec: the variant-type enum of `variantworks.types`
(members `SNP`, `INSERTION`, `DELETION` referenced by `vcfio.py`). -/
inductive VariantType
  | SNP
  | INSERTION
  | DELETION
deriving DecidableEq, Repr

/-- Modelled from the spec: the `Variant` dataclass of `variantworks.types`,
with exactly the fields `vcfio.py` passes to its constructor. Opaque
pass-through fields (quality, filter, info, sample data) are carried but
never interpreted. -/
structure Variant where
  chrom : String
  pos : Int
  id : Option String
  ref : String
  allele : String
  quality : Option Int
  filter : Option String
  info : List (String × String)
  format : List String
  samples : List (List String)
  zygosity : VariantZygosity
  type : VariantType
  vcf : String
  bam : String
deriving DecidableEq, Repr

/-- Dynamic Python values, as far as the entry validation in
`VCFReader.__init__` cares: `type(elem.is_fp) is bool` distinguishes a
genuine `bool` from every other runtime value. -/
inductive PyValue
  | bool (b : Bool)
  | int (n : Int)
  | str (s : String)
  | pynone
deriving DecidableEq, Repr

/-- Embedding of Python `type(v) is bool`. -/
def PyValue.is_bool : PyValue → Bool
  | .bool _ => true
  | _ => false

/-- Embedding of Python truthiness / use of the value as a boolean (only
ever applied after `is_bool` has been checked). -/
def PyValue.to_bool : PyValue → Bool
  | .bool b => b
  | .int n => n != 0
  | .str s => s != ""
  | .pynone => false

/-- The `VcfBamPath` dataclass of `VCFReader` (`vcf`, `bam`, `is_fp`);
`vcf`/`bam` are `Option` so that `None` entries exist, and `is_fp` is a
dynamic value so that non-boolean flags exist, as the `__init__` assertion
contemplates. -/
structure VcfBamPath where
  vcf : Option String
  bam : Option String
  is_fp : PyValue := .bool false
deriving DecidableEq, Repr

/-- A pyVCF record, with exactly the attributes `vcfio.py` reads:
field accessors, the alternate-allele sequences, the raw `FORMAT` string
(absent models the `AttributeError` path), per-sample data, the genotype
call counts, and the SNP/indel/deletion predicates. -/
structure PyRecord where
  CHROM : String
  POS : Int
  ID : Option String
  REF : String
  ALT : List String
  QUAL : Option Int
  FILTER : Option String
  INFO : List (String × String)
  FORMAT : Option String
  samples : List (List String)
  num_het : Nat
  num_hom_alt : Nat
  num_called : Nat
  is_snp : Bool
  is_indel : Bool
  is_deletion : Bool
deriving DecidableEq, Repr

/-- What the external VCF-parser collaborator yields for one opened file:
the declared sample-name list and the record stream. -/
structure VCFFile where
  samples : List String
  records : List PyRecord
deriving DecidableEq, Repr

/-- The exceptions `vcfio.py` raises, one constructor per raise site
(spec taxonomy in parentheses):
`configError` — the `assert` in `__init__` entry validation
(ConfigurationError); `noPathGiven` — `RuntimeError` in `_get_file_reader`
when neither object nor path is supplied (ConfigurationError);
`notCompressed` — the `.gz` suffix `assert` in `_get_file_reader`
(ConfigurationError); `multiSample` — `RuntimeError` for a true-positive
file without exactly one sample (UnsupportedInputError); `incompleteCalls`
— `RuntimeError` when `num_called < len(samples)` (MalformedRecordError);
`unexpectedZygosity` / `unexpectedType` — the `ValueError`s of the two
classifiers (ClassificationError, a MalformedRecordError); `formatMissing`
— `RuntimeError` when the `FORMAT` field cannot be parsed
(MalformedRecordError). -/
inductive VcfError
  | configError
  | noPathGiven
  | notCompressed
  | multiSample
  | incompleteCalls
  | unexpectedZygosity
  | unexpectedType
  | formatMissing
deriving DecidableEq, Repr

/-- The two soft-filter diagnostics `_parse_vcf` emits on the warning
channel. -/
inductive FilterWarning
  | notSnp
  | multiAllele
deriving DecidableEq, Repr

/-- Embedding of `VCFReader._get_variant_zygosity`. -/
def get_variant_zygosity (record : PyRecord) (is_fp : Bool) :
    Except VcfError VariantZygosity :=
  if is_fp then .ok .NO_VARIANT
  else if record.num_het > 0 then .ok .HETEROZYGOUS
  else if record.num_hom_alt > 0 then .ok .HOMOZYGOUS
  else .error .unexpectedZygosity

/-- Embedding of `VCFReader._get_variant_type`. -/
def get_variant_type (record : PyRecord) : Except VcfError VariantType :=
  if record.is_snp then .ok .SNP
  else if record.is_indel then
    if record.is_deletion then .ok .DELETION else .ok .INSERTION
  else .error .unexpectedType

/-- The `try record.FORMAT.split(':') except AttributeError` block inside
`_create_variant_tuple_from_record`: an absent `FORMAT` raises
`AttributeError`, mapped to `[]` under `is_fp` and to a `RuntimeError`
otherwise. -/
def parse_format (record : PyRecord) (is_fp : Bool) :
    Except VcfError (List String) :=
  match record.FORMAT with
  | some f => .ok (f.splitOn ":")
  | none => if is_fp then .ok [] else .error .formatMissing

/-- The `Variant(...)` constructor call inside the allele loop of
`_create_variant_tuple_from_record`, field for field. -/
def make_variant (record : PyRecord) (vcf_file bam : String)
    (var_allele : String) (var_format : List String)
    (var_zyg : VariantZygosity) (var_type : VariantType) : Variant :=
  { chrom := record.CHROM, pos := record.POS, id := record.ID,
    ref := record.REF, allele := var_allele, quality := record.QUAL,
    filter := record.FILTER, info := record.INFO, format := var_format,
    samples := record.samples, zygosity := var_zyg, type := var_type,
    vcf := vcf_file, bam := bam }

/-- The `for alt in record.ALT` loop of
`_create_variant_tuple_from_record`: one `Variant` per alternate allele, in
declared order; the format parse runs inside the loop body. -/
def alleles_loop (record : PyRecord) (vcf_file bam : String) (is_fp : Bool)
    (var_zyg : VariantZygosity) (var_type : VariantType) :
    List String → Except VcfError (List Variant)
  | [] => .ok []
  | var_allele :: rest =>
    match parse_format record is_fp with
    | .error e => .error e
    | .ok var_format =>
      match alleles_loop record vcf_file bam is_fp var_zyg var_type rest with
      | .error e => .error e
      | .ok vs =>
        .ok (make_variant record vcf_file bam var_allele var_format
              var_zyg var_type :: vs)

/-- Embedding of `VCFReader._create_variant_tuple_from_record` as consumed
by `_parse_vcf` (the generator is always drained in full): classify
zygosity, classify type, then expand the alleles. -/
def create_variant_tuple_from_record (record : PyRecord)
    (vcf_file bam : String) (is_fp : Bool) : Except VcfError (List Variant) :=
  match get_variant_zygosity record is_fp with
  | .error e => .error e
  | .ok var_zyg =>
    match get_variant_type record with
    | .error e => .error e
    | .ok var_typ =>
      alleles_loop record vcf_file bam is_fp var_zyg var_typ record.ALT

/-- Embedding of `VCFReader._get_file_reader` on the path-only call used by
`_parse_vcf`: an empty (falsy) path fails, a path without the `.gz` suffix
fails the compression assertion; otherwise the file may be opened. -/
def get_file_reader (vcf_file_path : String) : Except VcfError Unit :=
  if vcf_file_path = "" then .error .noPathGiven
  else if vcf_file_path.takeRight 3 = ".gz" then .ok ()
  else .error .notCompressed

/-- One iteration of the `for record in vcf_reader` loop body of
`_parse_vcf`: call-completeness check, SNP filter, multiallele filter, then
variant extraction. Returns the diagnostics emitted and the variants
appended for this record, or the error that aborts the run. -/
def process_record (record : PyRecord) (vcf_file bam : String)
    (num_samples : Nat) (is_fp : Bool) :
    Except VcfError (List FilterWarning × List Variant) :=
  if is_fp = false ∧ record.num_called < num_samples then
    .error .incompleteCalls
  else if record.is_snp = false then .ok ([.notSnp], [])
  else if record.ALT.length > 1 then .ok ([.multiAllele], [])
  else
    match create_variant_tuple_from_record record vcf_file bam is_fp with
    | .error e => .error e
    | .ok vs => .ok ([], vs)

/-- The full record loop of `_parse_vcf`, over the file's record stream in
order: diagnostics and appended variants accumulate in stream order; an
error aborts the loop with no later record processed. -/
def parse_records (vcf_file bam : String) (num_samples : Nat) (is_fp : Bool) :
    List PyRecord → Except VcfError (List FilterWarning × List Variant)
  | [] => .ok ([], [])
  | r :: rest =>
    match process_record r vcf_file bam num_samples is_fp with
    | .error e => .error e
    | .ok (w, vs) =>
      match parse_records vcf_file bam num_samples is_fp rest with
      | .error e => .error e
      | .ok (w2, vs2) => .ok (w ++ w2, vs ++ vs2)

/-- Embedding of `VCFReader._parse_vcf` for one file: open the reader
(suffix check first), enforce the single-sample constraint for
true-positive files, then run the record loop. The first component is the
list of files actually opened by this call (the I/O trace), the second the
outcome. -/
def parse_vcf (fs : String → VCFFile) (vcf_file bam : String) (is_fp : Bool) :
    List String × Except VcfError (List FilterWarning × List Variant) :=
  match get_file_reader vcf_file with
  | .error e => ([], .error e)
  | .ok _ =>
    let f := fs vcf_file
    if is_fp = false ∧ f.samples.length ≠ 1 then
      ([vcf_file], .error .multiSample)
    else
      ([vcf_file], parse_records vcf_file bam f.samples.length is_fp f.records)

/-- The per-entry validation `assert` of `VCFReader.__init__`:
`elem.vcf is not None and elem.bam is not None and type(elem.is_fp) is
bool`. -/
def valid_entry (e : VcfBamPath) : Bool :=
  e.vcf.isSome && e.bam.isSome && e.is_fp.is_bool

/-- Embedding of `VCFReader.__init__`: the entry loop, validating each
entry and then immediately parsing its file, appending to the shared label
list. First component: every file opened across the whole construction, in
order (the I/O trace); second: the built collection's diagnostics and
labels, or the error that aborted construction. -/
def init_reader (fs : String → VCFFile) :
    List VcfBamPath →
    List String × Except VcfError (List FilterWarning × List Variant)
  | [] => ([], .ok ([], []))
  | e :: rest =>
    if valid_entry e then
      match parse_vcf fs (e.vcf.getD "") (e.bam.getD "") e.is_fp.to_bool with
      | (tr, .error err) => (tr, .error err)
      | (tr, .ok (w, vs)) =>
        let (tr2, res2) := init_reader fs rest
        (tr ++ tr2,
         match res2 with
         | .error err => .error err
         | .ok (w2, vs2) => .ok (w ++ w2, vs ++ vs2))
    else ([], .error .configError)

/-- Embedding of `VCFReader.__getitem__`, which is Python list indexing on
`self._labels`: a negative index is first shifted by the length; an index
then outside `[0, length)` raises `IndexError` (`none`). -/
def getitem (labels : List Variant) (idx : Int) : Option Variant :=
  let n : Int := labels.length
  let j : Int := if idx < 0 then idx + n else idx
  if 0 ≤ j ∧ j < n then labels.get? j.toNat else none

/-- Embedding of `VCFReader.__len__`. -/
def len_reader (labels : List Variant) : Nat := labels.length

/-! Concrete fixtures: small records, files and entries used to evaluate
the embedding at explicit inputs. -/

/-- A well-formed heterozygous single-allele SNP record. -/
def exRecHet : PyRecord :=
  { CHROM := "1", POS := 100, ID := none, REF := "A", ALT := ["T"],
    QUAL := some 50, FILTER := none, INFO := [], FORMAT := some "GT:DP",
    samples := [["0/1", "30"]], num_het := 1, num_hom_alt := 0,
    num_called := 1, is_snp := true, is_indel := false,
    is_deletion := false }

/-- A homozygous-alternate SNP record. -/
def exRecHom : PyRecord :=
  { exRecHet with num_het := 0, num_hom_alt := 1, samples := [["1/1", "30"]] }

/-- A called record with neither heterozygous nor homozygous-alt counts. -/
def exRecNone : PyRecord :=
  { exRecHet with num_het := 0, num_hom_alt := 0 }

/-- A deletion record (not a SNP). -/
def exRecDel : PyRecord :=
  { exRecHet with
    REF := "AT", ALT := ["A"], is_snp := false,
    is_indel := true, is_deletion := true }

/-- An insertion record (not a SNP). -/
def exRecIns : PyRecord :=
  { exRecHet with
    ALT := ["AT"], is_snp := false, is_indel := true,
    is_deletion := false }

/-- A record that is neither SNP nor indel. -/
def exRecBadType : PyRecord :=
  { exRecHet with is_snp := false, is_indel := false, is_deletion := false }

/-- A non-SNP record that also declares two alternate alleles. -/
def exRecNonSnp : PyRecord :=
  { exRecHet with ALT := ["T", "G"], is_snp := false, is_indel := true }

/-- A SNP record declaring two alternate alleles. -/
def exRecMulti : PyRecord := { exRecHet with ALT := ["T", "G"] }

/-- A SNP record declaring an empty alternate-allele list. -/
def exRecNoAlt : PyRecord := { exRecHet with ALT := [] }

/-- A heterozygous SNP record whose `FORMAT` field is absent. -/
def exRecNoFmt : PyRecord := { exRecHet with FORMAT := none }

/-- A false-positive-style record: no `FORMAT`, no genotype counts, no
called samples. -/
def exRecFp : PyRecord :=
  { exRecHet with
    ALT := ["G"], FORMAT := none, num_het := 0,
    num_hom_alt := 0, num_called := 0, samples := [[]] }

/-- A record with fewer called samples than the file declares. -/
def exRecIncomplete : PyRecord := { exRecHet with num_called := 0 }

/-- A single-sample file holding the heterozygous record. -/
def exFileA : VCFFile := { samples := ["s1"], records := [exRecHet] }

/-- A single-sample file holding the false-positive-style record. -/
def exFileFp : VCFFile := { samples := ["s1"], records := [exRecFp] }

/-- A concrete filesystem for the collaborator: two readable files. -/
def exFs : String → VCFFile := fun p =>
  if p = "a.vcf.gz" then exFileA
  else if p = "b.vcf.gz" then exFileFp
  else { samples := [], records := [] }

/-- A valid input entry pointing at `exFileA`. -/
def exGoodEntry : VcfBamPath :=
  { vcf := some "a.vcf.gz", bam := some "a.bam" }

/-- An invalid input entry: its `vcf` path is `None`. -/
def exBadEntry : VcfBamPath := { vcf := none, bam := some "b.bam" }

/-- The variant the pipeline builds from `exRecHet`. -/
def exVarHet : Variant :=
  make_variant exRecHet "a.vcf.gz" "a.bam" "T" ("GT:DP".splitOn ":")
    .HETEROZYGOUS .SNP

/-- The variant the pipeline builds from `exRecFp` under `is_fp`. -/
def exVarFp : Variant :=
  make_variant exRecFp "b.vcf.gz" "b.bam" "G" [] .NO_VARIANT .SNP

/-- Follows the spec's words (processing order / append-only): how the
outcome of building a collection from two consecutive slices of the input
list combines — traces concatenate as long as processing advances, an
error in the first slice is the overall error with the second slice never
reached, and otherwise diagnostics and labels concatenate in order. -/
def combine_results
    (a b : List String × Except VcfError (List FilterWarning × List Variant)) :
    List String × Except VcfError (List FilterWarning × List Variant) :=
  match a with
  | (t1, .error e) => (t1, .error e)
  | (t1, .ok (w1, v1)) =>
    (t1 ++ b.1,
     match b.2 with
     | .error e => .error e
     | .ok (w2, v2) => .ok (w1 ++ w2, v1 ++ v2))

/-- Follows the spec's words: combining the outcomes of two consecutive
slices of one file's record stream. -/
def combine_parses (a b : Except VcfError (List FilterWarning × List Variant)) :
    Except VcfError (List FilterWarning × List Variant) :=
  match a with
  | .error e => .error e
  | .ok (w1, v1) =>
    match b with
    | .error e => .error e
    | .ok (w2, v2) => .ok (w1 ++ w2, v1 ++ v2)

end VariantWorks

deriving instance DecidableEq for Except

namespace VariantWorks

/-! Supporting lemmas about the embedding, shared by the claim theorems. -/

/-- Under the false-positive flag the format parse never fails. -/
lemma parse_format_true_ok (r : PyRecord) :
    ∃ l, parse_format r true = .ok l := by
  cases h : r.FORMAT <;> simp [parse_format, h]

/-- With a successful format parse, the allele loop maps each declared
allele, in order, to its `Variant`. -/
lemma alleles_loop_ok_map (r : PyRecord) (vcf bam : String) (fp : Bool)
    (z : VariantZygosity) (t : VariantType) (fmt : List String)
    (h : parse_format r fp = .ok fmt) :
    ∀ alts, alleles_loop r vcf bam fp z t alts =
      .ok (alts.map fun a => make_variant r vcf bam a fmt z t)
  | [] => rfl
  | a :: rest => by
    simp [alleles_loop, h, alleles_loop_ok_map r vcf bam fp z t fmt h rest]

/-- With a failing format parse, a nonempty allele loop fails at once. -/
lemma alleles_loop_err (r : PyRecord) (vcf bam : String) (fp : Bool)
    (z : VariantZygosity) (t : VariantType) (e : VcfError)
    (h : parse_format r fp = .error e) (a : String) (rest : List String) :
    alleles_loop r vcf bam fp z t (a :: rest) = .error e := by
  simp [alleles_loop, h]

/-- The shape of a successful extraction: both classifiers succeeded, and
the output is the allele list mapped to variants sharing one format, one
zygosity and one type (when the allele list is nonempty, the format comes
from a successful format parse). -/
lemma create_ok_shape {r : PyRecord} {vcf bam : String} {fp : Bool}
    {vs : List Variant}
    (h : create_variant_tuple_from_record r vcf bam fp = .ok vs) :
    ∃ z t fmt, get_variant_zygosity r fp = .ok z
      ∧ get_variant_type r = .ok t
      ∧ vs = r.ALT.map (fun a => make_variant r vcf bam a fmt z t)
      ∧ (r.ALT = [] ∨ parse_format r fp = .ok fmt) := by
  cases hz : get_variant_zygosity r fp with
  | error e =>
    have hce : create_variant_tuple_from_record r vcf bam fp = .error e := by
      unfold create_variant_tuple_from_record; rw [hz]
    rw [hce] at h; cases h
  | ok z =>
    cases ht : get_variant_type r with
    | error e =>
      have hce : create_variant_tuple_from_record r vcf bam fp = .error e := by
        unfold create_variant_tuple_from_record; rw [hz, ht]
      rw [hce] at h; cases h
    | ok t =>
      have hc : create_variant_tuple_from_record r vcf bam fp =
          alleles_loop r vcf bam fp z t r.ALT := by
        unfold create_variant_tuple_from_record; rw [hz, ht]
      rw [hc] at h
      cases halt : r.ALT with
      | nil =>
        rw [halt] at h
        cases h
        exact ⟨z, t, [], rfl, rfl, rfl, Or.inl rfl⟩
      | cons a rest =>
        rw [halt] at h
        cases hf : parse_format r fp with
        | error e =>
          rw [alleles_loop_err r vcf bam fp z t e hf a rest] at h
          cases h
        | ok fmt =>
          rw [alleles_loop_ok_map r vcf bam fp z t fmt hf (a :: rest)] at h
          cases h
          exact ⟨z, t, fmt, rfl, rfl, rfl, Or.inr rfl⟩

/-- A successfully classified zygosity is NO_VARIANT exactly under the
false-positive flag. -/
lemma zyg_no_variant_iff {r : PyRecord} {fp : Bool} {z : VariantZygosity}
    (h : get_variant_zygosity r fp = .ok z) :
    z = .NO_VARIANT ↔ fp = true := by
  cases fp
  · simp only [get_variant_zygosity] at h
    split_ifs at h <;> (try cases h) <;> simp_all
  · simp only [get_variant_zygosity] at h
    split_ifs at h <;> (try cases h) <;> simp_all

/-- The type classifier only ever fails with `unexpectedType`. -/
lemma type_err_shape {r : PyRecord} {e : VcfError}
    (h : get_variant_type r = .error e) : e = .unexpectedType := by
  simp only [get_variant_type] at h
  split_ifs at h <;> simp_all

/-- Extraction under the false-positive flag only ever fails with
`unexpectedType`: zygosity classification and the format parse cannot
fail there. -/
lemma create_fp_err {r : PyRecord} {vcf bam : String} {e : VcfError}
    (h : create_variant_tuple_from_record r vcf bam true = .error e) :
    e = .unexpectedType := by
  have hz : get_variant_zygosity r true = .ok .NO_VARIANT := rfl
  cases ht : get_variant_type r with
  | error e2 =>
    have hce : create_variant_tuple_from_record r vcf bam true = .error e2 := by
      unfold create_variant_tuple_from_record; rw [hz, ht]
    rw [hce] at h
    cases h
    exact type_err_shape ht
  | ok t =>
    obtain ⟨l, hf⟩ := parse_format_true_ok r
    have hce : create_variant_tuple_from_record r vcf bam true =
        .ok (r.ALT.map fun a => make_variant r vcf bam a l .NO_VARIANT t) := by
      unfold create_variant_tuple_from_record
      rw [hz, ht]
      exact alleles_loop_ok_map r vcf bam true .NO_VARIANT t l hf r.ALT
    rw [hce] at h
    cases h

/-- A variant in the output of one record-loop iteration comes from a
successful extraction on that record (the filter branches output no
variants). -/
lemma process_ok_mem {r : PyRecord} {vcf bam : String} {n : Nat} {fp : Bool}
    {w : List FilterWarning} {vs : List Variant} {v : Variant}
    (h : process_record r vcf bam n fp = .ok (w, vs)) (hv : v ∈ vs) :
    create_variant_tuple_from_record r vcf bam fp = .ok vs := by
  by_cases h1 : fp = false ∧ r.num_called < n
  · simp [process_record, h1] at h
  · by_cases h2 : r.is_snp = false
    · simp [process_record, h1, h2] at h
      simp_all
    · by_cases h3 : r.ALT.length > 1
      · simp [process_record, h1, h2, h3] at h
        simp_all
      · cases hc : create_variant_tuple_from_record r vcf bam fp with
        | error e => simp [process_record, h1, h2, h3, hc] at h
        | ok vs2 =>
          simp [process_record, h1, h2, h3, hc] at h
          simp_all [hc]

/-- A variant in the output of the record loop comes from a successful
per-record iteration on a record of the stream. -/
lemma parse_records_ok_mem {vcf bam : String} {n : Nat} {fp : Bool} :
    ∀ {records : List PyRecord} {w : List FilterWarning} {vs : List Variant}
      {v : Variant},
      parse_records vcf bam n fp records = .ok (w, vs) → v ∈ vs →
      ∃ r ∈ records, ∃ w1 vs1,
        process_record r vcf bam n fp = .ok (w1, vs1) ∧ v ∈ vs1 := by
  intro records
  induction records with
  | nil => intro w vs v h hv; cases h; cases hv
  | cons r rest ih =>
    intro w vs v h hv
    simp only [parse_records] at h
    cases hp : process_record r vcf bam n fp with
    | error e => rw [hp] at h; cases h
    | ok p =>
      obtain ⟨w1, vs1⟩ := p
      rw [hp] at h
      cases hrest : parse_records vcf bam n fp rest with
      | error e => rw [hrest] at h; cases h
      | ok q =>
        obtain ⟨w2, vs2⟩ := q
        rw [hrest] at h
        cases h
        rcases List.mem_append.mp hv with h1 | h2
        · exact ⟨r, List.mem_cons_self r rest, w1, vs1, hp, h1⟩
        · obtain ⟨r2, hr2, w3, vs3, hpr, hv3⟩ := ih hrest h2
          exact ⟨r2, List.mem_cons_of_mem r hr2, w3, vs3, hpr, hv3⟩

/-- A variant in a successfully parsed file comes from a successful
per-record iteration on a record of that file, run with the file's sample
count and the entry's flag. -/
lemma parse_vcf_ok_mem {fs : String → VCFFile} {vcf bam : String} {fp : Bool}
    {tr : List String} {w : List FilterWarning} {vs : List Variant}
    {v : Variant}
    (h : parse_vcf fs vcf bam fp = (tr, .ok (w, vs))) (hv : v ∈ vs) :
    ∃ r ∈ (fs vcf).records, ∃ w1 vs1,
      process_record r vcf bam (fs vcf).samples.length fp = .ok (w1, vs1)
      ∧ v ∈ vs1 := by
  cases hg : get_file_reader vcf with
  | error e => simp [parse_vcf, hg] at h
  | ok u =>
    by_cases hs : fp = false ∧ (fs vcf).samples.length ≠ 1
    · simp [parse_vcf, hg, hs] at h
    · simp [parse_vcf, hg, hs] at h
      exact parse_records_ok_mem h.2 hv

/-- The record loop never fails with `incompleteCalls` under the
false-positive flag: the call-completeness check is skipped, and no other
raise site produces that error. -/
lemma parse_records_fp_no_incomplete (vcf bam : String) (n : Nat) :
    ∀ records : List PyRecord,
      parse_records vcf bam n true records ≠ .error .incompleteCalls := by
  intro records
  induction records with
  | nil => simp [parse_records]
  | cons r rest ih =>
    simp only [parse_records]
    cases hp : process_record r vcf bam n true with
    | error e =>
      have he : e ≠ .incompleteCalls := by
        intro heq
        subst heq
        by_cases h2 : r.is_snp = false
        · simp [process_record, h2] at hp
        · by_cases h3 : r.ALT.length > 1
          · simp [process_record, h2, h3] at hp
          · cases hc : create_variant_tuple_from_record r vcf bam true with
            | error e2 =>
              simp [process_record, h2, h3, hc] at hp
              have h4 := create_fp_err hc
              rw [hp] at h4
              simp at h4
            | ok vs2 => simp [process_record, h2, h3, hc] at hp
      simpa using he
    | ok p =>
      obtain ⟨w1, vs1⟩ := p
      cases hrest : parse_records vcf bam n true rest with
      | error e =>
        rw [hrest] at ih
        simpa using ih
      | ok q => simp

/-- The record loop distributes over concatenation of the record stream,
combining diagnostics and labels in order. -/
lemma parse_records_append (vcf bam : String) (n : Nat) (fp : Bool) :
    ∀ rs1 rs2 : List PyRecord,
      parse_records vcf bam n fp (rs1 ++ rs2) =
        combine_parses (parse_records vcf bam n fp rs1)
          (parse_records vcf bam n fp rs2) := by
  intro rs1 rs2
  induction rs1 with
  | nil =>
    cases h2 : parse_records vcf bam n fp rs2 with
    | error e => simp [parse_records, combine_parses, h2]
    | ok q => obtain ⟨w2, vs2⟩ := q; simp [parse_records, combine_parses, h2]
  | cons r rest ih =>
    simp only [List.cons_append, parse_records, List.append_eq]
    cases hp : process_record r vcf bam n fp with
    | error e => simp [combine_parses]
    | ok p =>
      obtain ⟨w1, vs1⟩ := p
      rw [ih]
      cases hrest : parse_records vcf bam n fp rest with
      | error e => simp [combine_parses]
      | ok q =>
        obtain ⟨w2, vs2⟩ := q
        cases h2 : parse_records vcf bam n fp rs2 with
        | error e => simp [combine_parses]
        | ok q2 =>
          obtain ⟨w3, vs3⟩ := q2
          simp [combine_parses]

/-- The entry loop distributes over concatenation of the input list:
traces, diagnostics and labels combine in caller-supplied order, and an
error in the first slice stops processing before the second slice. -/
lemma init_reader_append (fs : String → VCFFile) :
    ∀ l1 l2 : List VcfBamPath,
      init_reader fs (l1 ++ l2) =
        combine_results (init_reader fs l1) (init_reader fs l2) := by
  intro l1 l2
  induction l1 with
  | nil =>
    cases h2 : init_reader fs l2 with
    | mk t2 r2 =>
      cases r2 with
      | error e => simp [init_reader, combine_results, h2]
      | ok q => obtain ⟨w2, vs2⟩ := q; simp [init_reader, combine_results, h2]
  | cons e rest ih =>
    by_cases hv : valid_entry e
    · cases hp : parse_vcf fs (e.vcf.getD "") (e.bam.getD "") e.is_fp.to_bool with
      | mk tp rp =>
        cases rp with
        | error err => simp [init_reader, hv, hp, combine_results]
        | ok p =>
          obtain ⟨wp, vsp⟩ := p
          cases hr : init_reader fs rest with
          | mk t1 r1 =>
            cases r1 with
            | error e1 =>
              have ihe : init_reader fs (rest ++ l2) = (t1, .error e1) := by
                rw [ih, hr]; simp [combine_results]
              simp [init_reader, hv, hp, hr, ihe, combine_results]
            | ok q1 =>
              obtain ⟨w1, vs1⟩ := q1
              cases h2 : init_reader fs l2 with
              | mk t2 r2 =>
                cases r2 with
                | error e2 =>
                  have ihe : init_reader fs (rest ++ l2) =
                      (t1 ++ t2, .error e2) := by
                    rw [ih, hr, h2]; simp [combine_results]
                  simp [init_reader, hv, hp, hr, h2, ihe, combine_results]
                | ok q2 =>
                  obtain ⟨w2, vs2⟩ := q2
                  have ihe : init_reader fs (rest ++ l2) =
                      (t1 ++ t2, .ok (w1 ++ w2, vs1 ++ vs2)) := by
                    rw [ih, hr, h2]; simp [combine_results]
                  simp [init_reader, hv, hp, hr, h2, ihe, combine_results]
    · simp [init_reader, hv, combine_results]

/-! Theorems settling the specification's claims. -/

/-- C3: zygosity classification. `is_fp` short-circuits to NO_VARIANT for
every record (counts never inspected); otherwise a positive heterozygous
count wins (first-match, regardless of the homozygous-alt count), then a
positive homozygous-alt count gives HOMOZYGOUS, and with both counts
non-positive classification fails with the ClassificationError
(`unexpectedZygosity`). -/
theorem zygosity_classification_c3 (r : PyRecord) :
    get_variant_zygosity r true = .ok .NO_VARIANT
    ∧ (0 < r.num_het → get_variant_zygosity r false = .ok .HETEROZYGOUS)
    ∧ (¬ 0 < r.num_het → 0 < r.num_hom_alt →
        get_variant_zygosity r false = .ok .HOMOZYGOUS)
    ∧ (¬ 0 < r.num_het → ¬ 0 < r.num_hom_alt →
        get_variant_zygosity r false = .error .unexpectedZygosity) := by
  refine ⟨rfl, fun h1 => ?_, fun h1 h2 => ?_, fun h1 h2 => ?_⟩ <;>
    simp [get_variant_zygosity, gt_iff_lt, *]

/-- Witness for C3 at concrete records (note `exRecHom` also shows the
third branch, and `exRecHet` has a positive heterozygous count). -/
theorem zygosity_classification_c3_witness :
    get_variant_zygosity exRecHet true = .ok .NO_VARIANT
    ∧ get_variant_zygosity exRecHet false = .ok .HETEROZYGOUS
    ∧ get_variant_zygosity exRecHom false = .ok .HOMOZYGOUS
    ∧ get_variant_zygosity exRecNone false = .error .unexpectedZygosity :=
  ⟨(zygosity_classification_c3 exRecHet).1,
   (zygosity_classification_c3 exRecHet).2.1 (by decide),
   (zygosity_classification_c3 exRecHom).2.2.1 (by decide) (by decide),
   (zygosity_classification_c3 exRecNone).2.2.2 (by decide) (by decide)⟩

/-- C8: variant-type classification. `is_snp` wins first; otherwise an
indel is DELETION or INSERTION by the deletion predicate; a record that is
neither SNP nor indel fails with the ClassificationError
(`unexpectedType`). -/
theorem type_classification_c8 (r : PyRecord) :
    (r.is_snp = true → get_variant_type r = .ok .SNP)
    ∧ (r.is_snp = false → r.is_indel = true → r.is_deletion = true →
        get_variant_type r = .ok .DELETION)
    ∧ (r.is_snp = false → r.is_indel = true → r.is_deletion = false →
        get_variant_type r = .ok .INSERTION)
    ∧ (r.is_snp = false → r.is_indel = false →
        get_variant_type r = .error .unexpectedType) := by
  refine ⟨fun h1 => ?_, fun h1 h2 h3 => ?_, fun h1 h2 h3 => ?_,
    fun h1 h2 => ?_⟩ <;> simp [get_variant_type, *]

/-- Witness for C8 at concrete records, one per branch. -/
theorem type_classification_c8_witness :
    get_variant_type exRecHet = .ok .SNP
    ∧ get_variant_type exRecDel = .ok .DELETION
    ∧ get_variant_type exRecIns = .ok .INSERTION
    ∧ get_variant_type exRecBadType = .error .unexpectedType :=
  ⟨(type_classification_c8 exRecHet).1 (by decide),
   (type_classification_c8 exRecDel).2.1 (by decide) (by decide) (by decide),
   (type_classification_c8 exRecIns).2.2.1 (by decide) (by decide)
     (by decide),
   (type_classification_c8 exRecBadType).2.2.2 (by decide) (by decide)⟩

/-- C2 counterexample: `get(-1)` on a one-element collection returns the
stored variant instead of failing with `IndexError` — Python list indexing
wraps negative indices, so the claim fails for negative indices in range. -/
theorem getitem_c2_counterexample : getitem [exVarHet] (-1) = some exVarHet := rfl

/-- C2 as amended: in-range non-negative indices return the index-th
element; `index ≥ length` and `index < -length` fail with `IndexError`;
but a negative index with `-length ≤ index < 0` returns the element at
`length + index` (Python wrap-around), not `IndexError`. -/
theorem getitem_c2 (labels : List Variant) (idx : Int) :
    (0 ≤ idx → idx < labels.length →
      ∃ v, getitem labels idx = some v ∧ labels.get? idx.toNat = some v)
    ∧ ((labels.length : Int) ≤ idx → getitem labels idx = none)
    ∧ (idx < -(labels.length : Int) → getitem labels idx = none)
    ∧ (-(labels.length : Int) ≤ idx → idx < 0 →
      ∃ v, getitem labels idx = some v
        ∧ labels.get? (idx + labels.length).toNat = some v) := by
  refine ⟨fun h1 h2 => ?_, fun h1 => ?_, fun h1 => ?_, fun h1 h2 => ?_⟩
  · have hn : idx.toNat < labels.length := by omega
    refine ⟨labels.get ⟨idx.toNat, hn⟩, ?_, List.get?_eq_get hn⟩
    simp only [getitem]
    split_ifs <;> first | exact List.get?_eq_get hn | omega
  · simp only [getitem]
    split_ifs <;> first | rfl | omega
  · simp only [getitem]
    split_ifs <;> first | rfl | omega
  · have hn : (idx + (labels.length : Int)).toNat < labels.length := by omega
    refine ⟨labels.get ⟨(idx + (labels.length : Int)).toNat, hn⟩, ?_,
      List.get?_eq_get hn⟩
    simp only [getitem]
    split_ifs <;> first | exact List.get?_eq_get hn | omega

/-- Witness for the amended C2 at a one-element collection: index 1 and
index -2 are out of range on both sides and fail with `IndexError`. -/
theorem getitem_c2_witness :
    getitem [exVarHet] 1 = none ∧ getitem [exVarHet] (-2) = none :=
  ⟨(getitem_c2 [exVarHet] 1).2.1 (by decide),
   (getitem_c2 [exVarHet] (-2)).2.2.1 (by decide)⟩

end VariantWorks

namespace VariantWorks

/-- C5: soft filters. A record that passes the call-completeness check but
is not a SNP is skipped with exactly the non-SNP diagnostic and no error;
a SNP record with more than one alternate allele is skipped with exactly
the multiallele diagnostic and no error. The SNP check runs first, so a
non-SNP multiallele record gets the non-SNP diagnostic; both branches
return before zygosity or type classification (the statements hold for
every record, including records on which classification would fail). -/
theorem soft_filters_c5 (r : PyRecord) (vcf bam : String) (n : Nat)
    (fp : Bool) (hpass : fp = true ∨ n ≤ r.num_called) :
    (r.is_snp = false →
      process_record r vcf bam n fp = .ok ([.notSnp], []))
    ∧ (r.is_snp = true → 1 < r.ALT.length →
      process_record r vcf bam n fp = .ok ([.multiAllele], [])) := by
  have hc : ¬ (fp = false ∧ r.num_called < n) := by
    rcases hpass with h | h
    · simp [h]
    · intro hcon
      exact absurd hcon.2 (by omega)
  constructor
  · intro hs
    simp [process_record, hc, hs]
  · intro hs hm
    simp [process_record, hc, hs, hm]

/-- Witness for C5: a non-SNP two-allele record gets the non-SNP
diagnostic; a SNP two-allele record gets the multiallele diagnostic. -/
theorem soft_filters_c5_witness :
    process_record exRecNonSnp "a.vcf.gz" "a.bam" 1 false =
      .ok ([.notSnp], [])
    ∧ process_record exRecMulti "a.vcf.gz" "a.bam" 1 false =
      .ok ([.multiAllele], []) :=
  ⟨(soft_filters_c5 exRecNonSnp "a.vcf.gz" "a.bam" 1 false
      (Or.inr (by decide))).1 (by decide),
   (soft_filters_c5 exRecMulti "a.vcf.gz" "a.bam" 1 false
      (Or.inr (by decide))).2 (by decide) (by decide)⟩

/-- C6: call-completeness check. With `is_fp` false, a record with fewer
called samples than the declared sample count fails the whole record loop
with `incompleteCalls` (no matter what records follow — none is
processed), also when valid records precede it; with `is_fp` true the
check is skipped and the loop never produces that error. -/
theorem call_completeness_c6 :
    (∀ (vcf bam : String) (n : Nat) (r : PyRecord) (rest : List PyRecord),
      r.num_called < n →
      parse_records vcf bam n false (r :: rest) = .error .incompleteCalls)
    ∧ (∀ (vcf bam : String) (n : Nat) (pre : List PyRecord) (r : PyRecord)
        (rest : List PyRecord) (w : List FilterWarning) (vs : List Variant),
      parse_records vcf bam n false pre = .ok (w, vs) →
      r.num_called < n →
      parse_records vcf bam n false (pre ++ r :: rest) =
        .error .incompleteCalls)
    ∧ (∀ (vcf bam : String) (n : Nat) (records : List PyRecord),
      parse_records vcf bam n true records ≠ .error .incompleteCalls) := by
  have hstop : ∀ (vcf bam : String) (n : Nat) (r : PyRecord)
      (rest : List PyRecord), r.num_called < n →
      parse_records vcf bam n false (r :: rest) =
        .error .incompleteCalls := by
    intro vcf bam n r rest hlt
    have hp : process_record r vcf bam n false = .error .incompleteCalls := by
      simp [process_record, hlt]
    simp [parse_records, hp]
  refine ⟨hstop, ?_, ?_⟩
  · intro vcf bam n pre r rest w vs hpre hlt
    rw [parse_records_append vcf bam n false pre (r :: rest), hpre,
      hstop vcf bam n r rest hlt]
    simp [combine_parses]
  · intro vcf bam n records
    exact parse_records_fp_no_incomplete vcf bam n records

/-- Witness for C6: a record with zero called samples in a one-sample
file aborts the loop when `is_fp` is false, and does not when `is_fp` is
true. -/
theorem call_completeness_c6_witness :
    parse_records "a.vcf.gz" "a.bam" 1 false [exRecIncomplete] =
      .error .incompleteCalls
    ∧ parse_records "a.vcf.gz" "a.bam" 1 true [exRecIncomplete] ≠
      .error .incompleteCalls :=
  ⟨call_completeness_c6.1 "a.vcf.gz" "a.bam" 1 exRecIncomplete []
      (by decide),
   call_completeness_c6.2.2 "a.vcf.gz" "a.bam" 1 [exRecIncomplete]⟩

/-- C10: a record passing the completeness check that is a SNP but
declares an empty alternate-allele list — with zygosity and type
classifying successfully — produces zero variants, no diagnostic and no
error: the multiallele filter only rejects strictly more than one allele,
and the allele-expansion loop over an empty list yields nothing. -/
theorem empty_alt_c10 (r : PyRecord) (vcf bam : String) (n : Nat)
    (fp : Bool) (hpass : fp = true ∨ n ≤ r.num_called)
    (hsnp : r.is_snp = true) (halt : r.ALT = [])
    (z : VariantZygosity) (hz : get_variant_zygosity r fp = .ok z)
    (t : VariantType) (ht : get_variant_type r = .ok t) :
    process_record r vcf bam n fp = .ok ([], []) := by
  have hc : ¬ (fp = false ∧ r.num_called < n) := by
    rcases hpass with h | h
    · simp [h]
    · intro hcon
      exact absurd hcon.2 (by omega)
  have hcre : create_variant_tuple_from_record r vcf bam fp = .ok [] := by
    unfold create_variant_tuple_from_record
    rw [hz, ht, halt]
    rfl
  simp [process_record, hc, hsnp, halt, hcre]

/-- Witness for C10 at a concrete empty-allele SNP record. -/
theorem empty_alt_c10_witness :
    process_record exRecNoAlt "a.vcf.gz" "a.bam" 1 false = .ok ([], []) :=
  empty_alt_c10 exRecNoAlt "a.vcf.gz" "a.bam" 1 false (Or.inr (by decide))
    (by decide) (by decide) .HETEROZYGOUS (by decide) .SNP (by decide)

end VariantWorks

namespace VariantWorks

/-- C7: the FORMAT field during variant assembly. A present FORMAT string
is split on `:` into every produced variant's format; an absent FORMAT
yields the empty format under `is_fp`, and fails extraction with
`formatMissing` when `is_fp` is false (stated for records that reach
assembly: at least one alternate allele, zygosity and type classified). -/
theorem format_field_c7 :
    (∀ (r : PyRecord) (vcf bam : String) (fp : Bool) (f : String)
        (vs : List Variant), r.FORMAT = some f →
      create_variant_tuple_from_record r vcf bam fp = .ok vs →
      ∀ v ∈ vs, v.format = f.splitOn ":")
    ∧ (∀ (r : PyRecord) (vcf bam : String) (vs : List Variant),
      r.FORMAT = none →
      create_variant_tuple_from_record r vcf bam true = .ok vs →
      ∀ v ∈ vs, v.format = [])
    ∧ (∀ (r : PyRecord) (vcf bam : String) (z : VariantZygosity)
        (t : VariantType), r.FORMAT = none → r.ALT ≠ [] →
      get_variant_zygosity r false = .ok z → get_variant_type r = .ok t →
      create_variant_tuple_from_record r vcf bam false =
        .error .formatMissing) := by
  refine ⟨?_, ?_, ?_⟩
  · intro r vcf bam fp f vs hfmt hok v hv
    obtain ⟨z, t, fmt, hz, ht, hvs, hor⟩ := create_ok_shape hok
    subst hvs
    obtain ⟨a, ha, rfl⟩ := List.mem_map.mp hv
    rcases hor with halt | hpf
    · exact absurd ha (by simp [halt])
    · simp only [parse_format, hfmt, Except.ok.injEq] at hpf
      exact hpf.symm
  · intro r vcf bam vs hfmt hok v hv
    obtain ⟨z, t, fmt, hz, ht, hvs, hor⟩ := create_ok_shape hok
    subst hvs
    obtain ⟨a, ha, rfl⟩ := List.mem_map.mp hv
    rcases hor with halt | hpf
    · exact absurd ha (by simp [halt])
    · simp only [parse_format, hfmt, if_true, Except.ok.injEq] at hpf
      exact hpf.symm
  · intro r vcf bam z t hfmt hne hz ht
    have hpf : parse_format r false = .error .formatMissing := by
      simp [parse_format, hfmt]
    cases halt : r.ALT with
    | nil => exact absurd halt hne
    | cons a rest =>
      unfold create_variant_tuple_from_record
      rw [hz, ht, halt]
      exact alleles_loop_err r vcf bam false z t .formatMissing hpf a rest

/-- Witness for C7: the three branches at concrete records. -/
theorem format_field_c7_witness :
    exVarHet.format = "GT:DP".splitOn ":"
    ∧ exVarFp.format = []
    ∧ create_variant_tuple_from_record exRecNoFmt "a.vcf.gz" "a.bam" false =
      .error .formatMissing :=
  ⟨format_field_c7.1 exRecHet "a.vcf.gz" "a.bam" false "GT:DP" [exVarHet]
      rfl rfl exVarHet (List.mem_singleton.mpr rfl),
   format_field_c7.2.1 exRecFp "b.vcf.gz" "b.bam" [exVarFp] rfl (by decide)
      exVarFp (List.mem_singleton.mpr rfl),
   format_field_c7.2.2 exRecNoFmt "a.vcf.gz" "a.bam" .HETEROZYGOUS .SNP rfl
      (by decide) (by decide) (by decide)⟩

/-- C4: every variant stored from a file parsed under flag `is_fp` has
zygosity NO_VARIANT exactly when that flag is true — for `is_fp` true
independently of the record's counts, and for `is_fp` false never. -/
theorem zygosity_iff_fp_c4 (fs : String → VCFFile) (vcf bam : String)
    (fp : Bool) (tr : List String) (w : List FilterWarning)
    (vs : List Variant)
    (h : parse_vcf fs vcf bam fp = (tr, .ok (w, vs))) :
    ∀ v ∈ vs, (v.zygosity = .NO_VARIANT ↔ fp = true) := by
  intro v hv
  obtain ⟨r, hr, w1, vs1, hp, hv1⟩ := parse_vcf_ok_mem h hv
  have hcre := process_ok_mem hp hv1
  obtain ⟨z, t, fmt, hz, ht, hvs, hor⟩ := create_ok_shape hcre
  subst hvs
  obtain ⟨a, ha, rfl⟩ := List.mem_map.mp hv1
  have hfield : (make_variant r vcf bam a fmt z t).zygosity = z := rfl
  rw [hfield]
  exact zyg_no_variant_iff hz

/-- Witness for C4: the false-positive file's variant, built from a
record with no genotype counts, carries NO_VARIANT. -/
theorem zygosity_iff_fp_c4_witness : exVarFp.zygosity = .NO_VARIANT :=
  (zygosity_iff_fp_c4 exFs "b.vcf.gz" "b.bam" true ["b.vcf.gz"] []
    [exVarFp] (by decide) exVarFp (List.mem_singleton.mpr rfl)).mpr rfl

/-- C9: order and length. Building from a concatenation of input slices
concatenates traces, diagnostics and labels in caller-supplied order
(append-only, no reordering, deduplication or omission); the record loop
does the same over the record stream; and a successful extraction yields
exactly one variant per declared alternate allele, in declared order, so
the collection length is the sum of per-file, per-record, per-allele
expansion counts. -/
theorem order_and_length_c9 :
    (∀ (fs : String → VCFFile) (l1 l2 : List VcfBamPath),
      init_reader fs (l1 ++ l2) =
        combine_results (init_reader fs l1) (init_reader fs l2))
    ∧ (∀ (vcf bam : String) (n : Nat) (fp : Bool)
        (rs1 rs2 : List PyRecord),
      parse_records vcf bam n fp (rs1 ++ rs2) =
        combine_parses (parse_records vcf bam n fp rs1)
          (parse_records vcf bam n fp rs2))
    ∧ (∀ (r : PyRecord) (vcf bam : String) (fp : Bool) (vs : List Variant),
      create_variant_tuple_from_record r vcf bam fp = .ok vs →
      vs.map (fun v => v.allele) = r.ALT ∧ vs.length = r.ALT.length) := by
  refine ⟨init_reader_append, parse_records_append, ?_⟩
  intro r vcf bam fp vs hok
  obtain ⟨z, t, fmt, hz, ht, hvs, -⟩ := create_ok_shape hok
  subst hvs
  constructor
  · have hcomp : ((fun v : Variant => v.allele) ∘
        fun a => make_variant r vcf bam a fmt z t) = id := by
      funext a
      rfl
    rw [List.map_map, hcomp, List.map_id]
  · simp

/-- Witness for C9's extraction conjunct at a concrete record. -/
theorem order_and_length_c9_witness :
    [exVarHet].map (fun v => v.allele) = exRecHet.ALT
    ∧ [exVarHet].length = exRecHet.ALT.length :=
  order_and_length_c9.2.2 exRecHet "a.vcf.gz" "a.bam" false [exVarHet] rfl

/-- C1 counterexample: with a valid first entry and an invalid second
entry, construction does fail with the ConfigurationError, but the first
entry's VCF file has already been opened (the I/O trace is nonempty) —
refuting "fails ... without any VCF file having been opened" for lists
whose invalid entry is not the first. -/
theorem entry_validation_c1_counterexample :
    (init_reader exFs [exGoodEntry, exBadEntry]).2 = .error .configError
    ∧ (init_reader exFs [exGoodEntry, exBadEntry]).1 ≠ [] := by
  constructor
  · decide
  · decide

/-- C1 as amended: each entry is validated before that entry's own file is
opened — when processing reaches an invalid entry (after any prefix of
valid, successfully parsed entries), construction fails with the
ConfigurationError and neither the invalid entry's file nor any later file
is opened (the trace stays exactly the prefix's trace); files of earlier
valid entries, however, have already been opened and read. -/
theorem entry_validation_c1 (fs : String → VCFFile) (pre : List VcfBamPath)
    (e : VcfBamPath) (post : List VcfBamPath) (tr : List String)
    (w : List FilterWarning) (vs : List Variant)
    (hpre : init_reader fs pre = (tr, .ok (w, vs)))
    (he : valid_entry e = false) :
    init_reader fs (pre ++ e :: post) = (tr, .error .configError) := by
  have hbad : init_reader fs (e :: post) = ([], .error .configError) := by
    simp [init_reader, he]
  rw [init_reader_append fs pre (e :: post), hpre, hbad]
  simp [combine_results]

/-- Witness for the amended C1: one valid entry before one invalid entry;
the trace holds exactly the valid entry's file. -/
theorem entry_validation_c1_witness :
    init_reader exFs [exGoodEntry, exBadEntry] =
      (["a.vcf.gz"], .error .configError) :=
  entry_validation_c1 exFs [exGoodEntry] exBadEntry [] ["a.vcf.gz"] []
    [exVarHet] rfl (by decide)

end VariantWorks
